import Mathlib

/-! Shallow embedding of the client-side game session logic of
`src/tic_tac_frontend/src/App.js` (tic-tac-toe frontend).

JavaScript values that may be `undefined` or `null` are modelled as `Option`;
JS truthiness of strings (the empty string is falsy) and the `x || y` idiom
are made explicit below.  Each request/response round trip is split into a
`Pre` phase (the synchronous code up to dispatching `fetch`; it returns
`none` when the function returns early, so that no HTTP request is
dispatched) and an `Apply` phase (the continuation that is applied to the
HTTP outcome, whatever the client state is when the response arrives).
React batches the state-setter calls of one continuation into a single
update, which the embedding renders as a single record update. -/

/-- Truthiness of a JS string-or-nullish value: `undefined`, `null` and the
empty string are falsy (used by `if (!gid)` and `if (!gameId)`). -/
def jsTruthy : Option String → Bool
  | none => false
  | some s => if s = "" then false else true

/-- The JS idiom `m || d` on strings: the empty string falls back to the default
(used by `err.message || fallback`). -/
def jsOr (m d : String) : String := if m = "" then d else m

/-- The JS idiom `x || d` for a possibly-absent string
(used by `data.error || fallback`). -/
def jsOrOpt : Option String → String → String
  | none, d => d
  | some s, d => jsOr s d

/-- The JS idiom `x || null` for a possibly-absent string
(used by `data.winner || null`). -/
def jsOrNull : Option String → Option String
  | none => none
  | some s => if s = "" then none else some s

/-- A 3x3 board as the code stores it: rows of cell strings, a cell being
one of `""`, `"X"`, `"O"`. -/
abbrev GameBoard := List (List String)

/-- The React state of the `App` component, lines 171-178 of `App.js`.
Fields that a server response can leave `undefined` are `Option`. -/
structure ClientState where
  gameId : Option String
  board : Option GameBoard
  currentPlayer : Option String
  status : Option String
  winner : Option String
  moves : Option Nat
  loading : Bool
  error : String
deriving DecidableEq, Repr

/-- The initial `useState` values of `App.js` lines 171-178: empty board,
player X, ongoing status, no winner, zero moves, not loading, empty error,
no session id yet. -/
def initialState : ClientState :=
  { gameId := none
    board := some [["", "", ""], ["", "", ""], ["", "", ""]]
    currentPlayer := some "X"
    status := some "ongoing"
    winner := none
    moves := some 0
    loading := false
    error := "" }

/-- The JSON body shape read by `startNewGame` and `fetchGameState`
(fields `id`, `board`, `current_player`, `status`, `winner`, `moves`);
absent fields are `none`. -/
structure GameJson where
  id : Option String
  board : Option GameBoard
  current_player : Option String
  status : Option String
  winner : Option String
  moves : Option Nat
deriving DecidableEq, Repr

/-- The nested `state` object of a move response, as read by
`handleCellClick` (no `id` field is read from it). -/
structure MoveStateJson where
  board : Option GameBoard
  current_player : Option String
  status : Option String
  winner : Option String
  moves : Option Nat
deriving DecidableEq, Repr

/-- The JSON body shape of a `POST /move` response: `valid` (collapsed to its
JS truthiness), the optional `state`, and an optional `error` string. -/
structure MoveJson where
  valid : Bool
  state : Option MoveStateJson
  error : Option String
deriving DecidableEq, Repr

/-- Result of `res.json()`: either the body failed JSON parsing (with the
parse-error message the rejected promise carries) or it parsed to `α`. -/
inductive JsonBody (α : Type)
  | parseFail (msg : String)
  | parsed (d : α)
deriving DecidableEq, Repr

/-- Outcome of one `fetch` call: a rejected promise carrying an error
message, or an HTTP response with a status code and a body. -/
inductive HttpResult (α : Type)
  | netError (msg : String)
  | resp (status : Nat) (body : JsonBody α)
deriving DecidableEq, Repr

/-- The `res.ok` flag of the Fetch API: status in the 200-299 range. -/
def resOk (c : Nat) : Bool := decide (200 ≤ c) && decide (c < 300)

/-- Lines 184-188 of `App.js`: the synchronous prefix of `fetchGameState(gid)`.
`if (!gid) return;` — otherwise `setLoading(true)` and the `GET /game/gid`
request is dispatched.  `none` means the function returned early and no
request was dispatched.  Note that there is no check of `loading` here. -/
def fetchGameStatePre (s : ClientState) (gid : Option String) : Option ClientState :=
  if jsTruthy gid = false then none
  else some { s with loading := true }

/-- Lines 189-204 of `App.js`: the continuation of `fetchGameState` applied to
the HTTP outcome, run against whatever the client state is on arrival.
On `!res.ok` the thrown message is caught; on parsed JSON the update happens
only `if (data.board)`; the `finally` clause resets `loading`. -/
def fetchGameStateApply (s : ClientState) (r : HttpResult GameJson) : ClientState :=
  match r with
  | .netError m => { s with error := jsOr m "Could not fetch game state", loading := false }
  | .resp stc body =>
    if resOk stc = true then
      match body with
      | .parseFail m => { s with error := jsOr m "Could not fetch game state", loading := false }
      | .parsed d =>
        match d.board with
        | some b =>
          { s with board := some b
                   currentPlayer := d.current_player
                   status := d.status
                   winner := d.winner
                   moves := d.moves
                   gameId := d.id
                   error := ""
                   loading := false }
        | none => { s with loading := false }
    else { s with error := jsOr "Failed to fetch game state" "Could not fetch game state", loading := false }

/-- Lines 209-210 of `App.js`: the synchronous prefix of `startNewGame`:
`setLoading(true); setError('')` before the `POST /game` dispatch. -/
def startNewGamePre (s : ClientState) : ClientState :=
  { s with loading := true, error := "" }

/-- Lines 212-226 of `App.js`: the continuation of `startNewGame` applied to
the HTTP outcome.  On parsed JSON every field is applied unconditionally,
with `data.winner || null` and `data.moves || 0` defaults. -/
def startNewGameApply (s : ClientState) (r : HttpResult GameJson) : ClientState :=
  match r with
  | .netError m => { s with error := jsOr m "Could not start a new game", loading := false }
  | .resp stc body =>
    if resOk stc = true then
      match body with
      | .parseFail m => { s with error := jsOr m "Could not start a new game", loading := false }
      | .parsed d =>
        { s with gameId := d.id
                 board := d.board
                 currentPlayer := d.current_player
                 status := d.status
                 winner := jsOrNull d.winner
                 moves := some (d.moves.getD 0)
                 error := ""
                 loading := false }
    else { s with error := jsOr "Failed to start new game" "Could not start a new game", loading := false }

/-- Lines 230-233 of `App.js`: the synchronous prefix of `handleCellClick(r, c)`:
`if (status !== 'ongoing' || !gameId) return;` then `setLoading(true);
setError('')` before the `POST /move` dispatch with body
`{game_id: gameId, row: r, col: c}`.  The guard does not consult `r`, `c`
or `loading`. -/
def handleCellClickPre (s : ClientState) (r c : Nat) : Option ClientState :=
  if s.status ≠ some "ongoing" ∨ jsTruthy s.gameId = false then none
  else some { s with loading := true, error := "" }

/-- Lines 240-257 of `App.js`: the continuation of `handleCellClick` applied
to the HTTP outcome.  On `!res.ok` the thrown message carries the status
code; on parsed JSON the session fields are applied only when
`data.valid && data.state`, otherwise `setError(data.error || 'Illegal move')`. -/
def handleCellClickApply (s : ClientState) (r : HttpResult MoveJson) : ClientState :=
  match r with
  | .netError m => { s with error := jsOr m "Could not submit move", loading := false }
  | .resp stc body =>
    if resOk stc = true then
      match body with
      | .parseFail m => { s with error := jsOr m "Could not submit move", loading := false }
      | .parsed d =>
        match d.valid, d.state with
        | true, some st2 =>
          { s with board := st2.board
                   currentPlayer := st2.current_player
                   status := st2.status
                   winner := jsOrNull st2.winner
                   moves := st2.moves
                   error := ""
                   loading := false }
        | _, _ => { s with error := jsOrOpt d.error "Illegal move", loading := false }
    else
      { s with error := jsOr ("Move failed (" ++ toString stc ++ ")") "Could not submit move"
               loading := false }

/-- Line 34 of `App.js`: a board cell button is disabled when the board is
disabled or the cell is non-empty. -/
def boardCellDisabled (disabled : Bool) (cell : String) : Bool :=
  disabled || decide (cell ≠ "")

/-- Line 338 of `App.js`: the `disabled` prop passed to `Board`:
`status !== 'ongoing' || loading`. -/
def appBoardDisabled (s : ClientState) : Bool :=
  decide (s.status ≠ some "ongoing") || s.loading

/-- Lines 334-339 of `App.js`: a cell click can reach `handleCellClick` only
when the wrapper div accepts pointer events (`!loading`) and the button is
not disabled. -/
def cellClickable (s : ClientState) (cell : String) : Bool :=
  !s.loading && !(boardCellDisabled (appBoardDisabled s) cell)

/-- The fields the spec calls the session (`board`, `currentPlayer`,
`status`, `winner`, `moveCount`, `id`) agree between two client states. -/
def sessionEq (a b : ClientState) : Prop :=
  a.gameId = b.gameId ∧ a.board = b.board ∧ a.currentPlayer = b.currentPlayer ∧
  a.status = b.status ∧ a.winner = b.winner ∧ a.moves = b.moves

instance (a b : ClientState) : Decidable (sessionEq a b) := by
  unfold sessionEq; infer_instance

/-- A cleanup function returned by one run of the polling effect of
`App.js` lines 261-279, as data: either no cleanup (the early-return
branch), `() => clearInterval(interval)` capturing the freshly created
interval (line 273), or `() => { if (pollInterval) clearInterval(pollInterval) }`
capturing the `pollInterval` value of that render (lines 276-278). -/
inductive PollCleanup
  | noCleanup
  | clearFresh (t : Nat)
  | clearCaptured (p : Option Nat)
deriving DecidableEq, Repr

/-- Remove a cleared interval id from the list of live interval timers. -/
def clearTimer (t : Nat) (live : List Nat) : List Nat :=
  live.filter (fun x => x ≠ t)

/-- Run a stored cleanup against the list of live interval timers. -/
def runPollCleanup : PollCleanup → List Nat → List Nat
  | .noCleanup, l => l
  | .clearFresh t, l => clearTimer t l
  | .clearCaptured none, l => l
  | .clearCaptured (some t), l => clearTimer t l

/-- The bookkeeping React holds for the polling effect of `App.js`
lines 261-279: the `pollInterval` state variable, the set of interval
timers that have been created and not yet cleared, the cleanup returned by
the previous run, and the dependency values `(gameId, status, pollInterval)`
observed at the previous run (the `fetchGameState` dependency changes
identity exactly when `gameId` does, so it adds nothing).  `lastDeps = none`
means the effect has never run. -/
structure PollEffectState where
  pollInterval : Option Nat
  live : List Nat
  pending : PollCleanup
  lastDeps : Option (Option String × Option String × Option Nat)
deriving DecidableEq, Repr

/-- One run of the polling effect (lines 261-279), with `fresh` the id of the
interval `setInterval` would create.  React first runs the cleanup returned
by the previous run, then the effect body: the early-return branch clears
`pollInterval` if present and sets it to null; the creation branch
(`if (!pollInterval)`) creates an interval and returns a cleanup clearing
it; the remaining branch returns a cleanup clearing the captured
`pollInterval`.  `lastDeps` records the dependency values seen at entry. -/
def runPollEffect (gid st : Option String) (es : PollEffectState) (fresh : Nat) :
    PollEffectState :=
  let l := runPollCleanup es.pending es.live
  if jsTruthy gid = false ∨ st ≠ some "ongoing" then
    { pollInterval := none
      live := match es.pollInterval with
              | some t => clearTimer t l
              | none => l
      pending := .noCleanup
      lastDeps := some (gid, st, es.pollInterval) }
  else if es.pollInterval = none then
    { pollInterval := some fresh
      live := fresh :: l
      pending := .clearFresh fresh
      lastDeps := some (gid, st, es.pollInterval) }
  else
    { pollInterval := es.pollInterval
      live := l
      pending := .clearCaptured es.pollInterval
      lastDeps := some (gid, st, es.pollInterval) }

/-- Re-run the polling effect until its dependency tuple
`(gameId, status, pollInterval)` matches the values recorded at the last
run, as React does after every commit whose render changed a dependency
(setting `pollInterval` inside the effect re-triggers it).  `fuel` bounds
the iteration; two extra runs always suffice here. -/
def pollEffectSettle (gid st : Option String) (es : PollEffectState)
    (fresh fuel : Nat) : PollEffectState :=
  match fuel with
  | 0 => es
  | Nat.succ n =>
    if es.lastDeps = some (gid, st, es.pollInterval) then es
    else pollEffectSettle gid st (runPollEffect gid st es fresh) (fresh + 1) n

/-- The effect bookkeeping before any run: null `pollInterval`, no live
timers, no pending cleanup, never run. -/
def pollEffectInit : PollEffectState :=
  { pollInterval := none, live := [], pending := .noCleanup, lastDeps := none }

/-- The effect state after the mount render: `gameId` is still null, so the
early-return branch runs. -/
def pollEffectAfterMount : PollEffectState :=
  runPollEffect none (some "ongoing") pollEffectInit 0

/-- The settled effect state after a successful session creation set
`gameId := some "g1"` with status ongoing: the effect runs, creates
interval 1, `setPollInterval` re-triggers the effect, and the re-run first
executes the previous cleanup `clearInterval(1)`. -/
def pollEffectAfterCreate : PollEffectState :=
  pollEffectSettle (some "g1") (some "ongoing") pollEffectAfterMount 1 4

/-- The empty 3x3 board. -/
def emptyBoard : GameBoard := [["", "", ""], ["", "", ""], ["", "", ""]]

/-- The board with an X in the centre cell. -/
def centerXBoard : GameBoard := [["", "", ""], ["", "X", ""], ["", "", ""]]

/-- The parsed body of a successful `POST /game` (or `GET /game/g1`)
response: session `g1`, empty board, X to move, ongoing, zero moves. -/
def gJsonG1 : GameJson :=
  { id := some "g1", board := some emptyBoard, current_player := some "X"
    status := some "ongoing", winner := none, moves := some 0 }

/-- A successful `POST /game` response carrying `gJsonG1`. -/
def createRespG1 : HttpResult GameJson :=
  .resp 200 (.parsed gJsonG1)

/-- A successful `GET /game/g1` response observed mid-game: centre X, O to
move, ongoing, five moves played. -/
def fetchRespMoves5 : HttpResult GameJson :=
  .resp 200 (.parsed
    { id := some "g1", board := some centerXBoard, current_player := some "O"
      status := some "ongoing", winner := none, moves := some 5 })

/-- The client state after the mount-time `startNewGame` round trip
succeeds with `createRespG1`. -/
def sCreated : ClientState :=
  startNewGameApply (startNewGamePre initialState) createRespG1

/-- The client state after clicking cell (1,1) in `sCreated`, at the moment
the `POST /move` request is in flight. -/
def sClicked : ClientState := (handleCellClickPre sCreated 1 1).getD sCreated

/-- A successful move response placing X in the centre: O to move, still
ongoing, one move played. -/
def moveRespCenter : HttpResult MoveJson :=
  .resp 200 (.parsed
    { valid := true
      state := some
        { board := some centerXBoard, current_player := some "O"
          status := some "ongoing", winner := none, moves := some 1 }
      error := none })

/-- A successful move response that ends the game: X wins. -/
def moveRespWin : HttpResult MoveJson :=
  .resp 200 (.parsed
    { valid := true
      state := some
        { board := some centerXBoard, current_player := some "O"
          status := some "win", winner := some "X", moves := some 1 }
      error := none })

/-- The client state after the scenario create - click (1,1) - accepted
centre move. -/
def sAfterMove : ClientState := handleCellClickApply sClicked moveRespCenter

/-- A reachable terminal state: create - click (1,1) - winning move
response applied. -/
def sTerminal : ClientState := handleCellClickApply sClicked moveRespWin

/-- A reachable state with a request in flight: `sCreated` while loading. -/
def sLoading : ClientState := { sCreated with loading := true }

/-- A reachable state carrying a leftover error message from a previously
failed attempt. -/
def sErrored : ClientState := { sCreated with error := "previous failure" }

/-- A JSON body that parses but has none of the expected GameState fields
(for example the body was the empty object). -/
def emptyJson : GameJson :=
  { id := none, board := none, current_player := none, status := none
    winner := none, moves := none }

/-- Helper: a successful guard in `handleCellClick` dispatches with exactly
`loading := true, error := ''` applied to the state it saw. -/
theorem handleCellClickPre_some (s s₁ : ClientState) (r c : Nat)
    (h : handleCellClickPre s r c = some s₁) :
    s₁ = { s with loading := true, error := "" } := by
  unfold handleCellClickPre at h
  split at h
  · exact absurd h (by simp)
  · exact (Option.some.inj h).symm

/-- Helper: a successful guard in `fetchGameState` dispatches with exactly
`loading := true` applied to the state it saw; the error field is untouched. -/
theorem fetchGameStatePre_some (s s₁ : ClientState) (gid : Option String)
    (h : fetchGameStatePre s gid = some s₁) :
    s₁ = { s with loading := true } := by
  unfold fetchGameStatePre at h
  split at h
  · exact absurd h (by simp)
  · exact (Option.some.inj h).symm

/-- Helper: the JS fallback of a nonempty default is never empty. -/
theorem jsOr_ne_empty (m d : String) (hd : d ≠ "") : jsOr m d ≠ "" := by
  unfold jsOr
  split
  · exact hd
  · assumption

/-- Helper: the JS fallback of a nonempty default is never empty
(optional-string version). -/
theorem jsOrOpt_ne_empty (m : Option String) (d : String) (hd : d ≠ "") :
    jsOrOpt m d ≠ "" := by
  cases m with
  | none => exact hd
  | some s => exact jsOr_ne_empty s d hd

/-- Helper: updating only `error` and `loading` leaves every session field
unchanged. -/
theorem sessionEq_errorUpdate (s : ClientState) (e : String) (l : Bool) :
    sessionEq { s with error := e, loading := l } s :=
  ⟨rfl, rfl, rfl, rfl, rfl, rfl⟩

/-- C7: in the concrete run where session creation returns session `g1`
with an empty 3x3 board, X to move, ongoing, zero moves, and the move at
(1,1) is accepted with the centre-X board, O to move, one move, the
resulting client state has centre cell X, current player O and move count
one. -/
theorem C7_scenario :
    (handleCellClickPre sCreated 1 1).isSome = true ∧
    sAfterMove.board = some centerXBoard ∧
    ((sAfterMove.board.getD []).getD 1 []).getD 1 "" = "X" ∧
    sAfterMove.currentPlayer = some "O" ∧
    sAfterMove.moves = some 1 := by decide

/-- C9: the initial client state, before any server response, has an empty
3x3 board, current player X, ongoing status, no winner, zero moves, empty
error and no session id; and in that state every cell click is a complete
no-op because the game id is null, even though the status is ongoing. -/
theorem C9_initial_state :
    initialState.board = some emptyBoard ∧
    initialState.currentPlayer = some "X" ∧
    initialState.status = some "ongoing" ∧
    initialState.winner = none ∧
    initialState.moves = some 0 ∧
    initialState.error = "" ∧
    initialState.gameId = none ∧
    ∀ r c : Nat, handleCellClickPre initialState r c = none := by
  refine ⟨rfl, rfl, rfl, rfl, rfl, rfl, rfl, fun r c => ?_⟩
  rfl

/-- C8: a `fetchGameState` response with a success status whose parsed JSON
body lacks a truthy `board` field is a silent no-op: every field of the
client state except `loading` is left unchanged (in particular no error is
reported) and `loading` returns to false. -/
theorem C8_fetch_silent_noop (s : ClientState) (stc : Nat) (d : GameJson)
    (h1 : resOk stc = true) (h2 : d.board = none) :
    fetchGameStateApply s (.resp stc (.parsed d)) = { s with loading := false } := by
  simp only [fetchGameStateApply]
  rw [if_pos h1, h2]

/-- Witness for C8 at the concrete state after creation and the empty JSON
object body. -/
theorem C8_witness :
    fetchGameStateApply sCreated (.resp 200 (.parsed emptyJson)) =
      { sCreated with loading := false } :=
  C8_fetch_silent_noop sCreated 200 emptyJson (by decide) rfl

/-- C10: a `handleCellClick` response with a success status that is not
accepted (`valid` falsy or `state` absent) and carries no nonempty `error`
string sets the error message to the default `Illegal move`. -/
theorem C10_default_illegal_move (s : ClientState) (stc : Nat) (d : MoveJson)
    (h1 : resOk stc = true)
    (h2 : d.valid = false ∨ d.state = none)
    (h3 : d.error = none ∨ d.error = some "") :
    (handleCellClickApply s (.resp stc (.parsed d))).error = "Illegal move" := by
  obtain ⟨v, st, e⟩ := d
  simp only [handleCellClickApply]
  rw [if_pos h1]
  have he : jsOrOpt e "Illegal move" = "Illegal move" := by
    rcases h3 with h3 | h3 <;> simp_all [jsOrOpt, jsOr]
  rcases h2 with h2 | h2
  · simp only at h2
    subst h2
    cases st <;> simpa using he
  · simp only at h2
    subst h2
    cases v <;> simpa using he

/-- Witness for C10 at a concrete rejected move with no error string. -/
theorem C10_witness :
    (handleCellClickApply sClicked
      (.resp 200 (.parsed { valid := false, state := none, error := none }))).error
      = "Illegal move" :=
  C10_default_illegal_move sClicked 200
    { valid := false, state := none, error := none }
    (by decide) (Or.inl rfl) (Or.inl rfl)

/-- C1 counterexample: in the reachable state `sLoading` (a session exists
and a request is in flight, `loading = true`), a poll-triggered
`fetchGameState('g1')` is not a no-op: its guard consults only the game id,
so the HTTP request is dispatched (`fetchGameStatePre` returns `some`), and
when its response arrives it changes client fields (here `moves`).  The
claim that `loading = true` suppresses poll-triggered fetches and keeps at
most one request outstanding is therefore false. -/
theorem C1_counterexample :
    sLoading.loading = true ∧
    fetchGameStatePre sLoading (some "g1") = some sLoading ∧
    (fetchGameStateApply sLoading fetchRespMoves5).moves ≠ sLoading.moves ∧
    (fetchGameStateApply sLoading fetchRespMoves5).board ≠ sLoading.board := by
  decide

/-- C1 amended: whenever `loading` is true, a user-originated move
submission is suppressed, but only by the presentation layer: every board
cell renders unclickable (the wrapper drops pointer events and the button
is disabled).  A poll-triggered fetch is not suppressed at all: whenever
the captured game id is truthy, `fetchGameState` dispatches its HTTP
request regardless of `loading`, so overlapping in-flight requests are
possible. -/
theorem C1_amended (s : ClientState) (cell : String) (gid : Option String)
    (hl : s.loading = true) (hg : jsTruthy gid = true) :
    cellClickable s cell = false ∧
    fetchGameStatePre s gid = some { s with loading := true } := by
  constructor
  · simp [cellClickable, hl]
  · simp [fetchGameStatePre, hg]

/-- Witness for the amended C1 at the concrete in-flight state. -/
theorem C1_amended_witness :
    cellClickable sLoading "" = false ∧
    fetchGameStatePre sLoading (some "g1") = some { sLoading with loading := true } :=
  C1_amended sLoading "" (some "g1") rfl rfl

/-- C2 counterexample: `sTerminal` is reachable (create session `g1`, click
cell (1,1), winning move response applied) and has status `win`; a fetch
response that was dispatched by a poll tick while the game was still
ongoing and arrives only now is applied unconditionally by the
`fetchGameState` continuation, changing `board`, `status`, `winner` and
`moves` of the terminal state without any New Game call. -/
theorem C2_counterexample :
    sTerminal.status = some "win" ∧
    (fetchGameStateApply sTerminal createRespG1).status = some "ongoing" ∧
    (fetchGameStateApply sTerminal createRespG1).board ≠ sTerminal.board ∧
    (fetchGameStateApply sTerminal createRespG1).winner ≠ sTerminal.winner ∧
    (fetchGameStateApply sTerminal createRespG1).moves ≠ sTerminal.moves := by
  decide

/-- C2 amended: in every terminal state (status `win` or `draw`) a move
submission is a complete no-op (the guard returns before dispatch), but a
fetch response still in flight when the game became terminal is applied
wholesale on arrival — the continuation does not re-check the status — and
so can change every session field.  Terminal states are sticky only
against move submissions and newly scheduled polls, with full replacement
by a New Game response as the other exit. -/
theorem C2_amended (s : ClientState) (r c stc : Nat) (d : GameJson) (b : GameBoard)
    (hterm : s.status = some "win" ∨ s.status = some "draw")
    (hok : resOk stc = true) (hb : d.board = some b) :
    handleCellClickPre s r c = none ∧
    fetchGameStateApply s (.resp stc (.parsed d)) =
      { s with board := some b
               currentPlayer := d.current_player
               status := d.status
               winner := d.winner
               moves := d.moves
               gameId := d.id
               error := ""
               loading := false } := by
  constructor
  · unfold handleCellClickPre
    rw [if_pos]
    left
    rcases hterm with h | h <;> rw [h] <;> simp
  · simp only [fetchGameStateApply]
    rw [if_pos hok, hb]

/-- Witness for the amended C2 at the concrete terminal state and the stale
ongoing fetch body. -/
theorem C2_amended_witness :
    handleCellClickPre sTerminal 0 0 = none ∧
    fetchGameStateApply sTerminal (.resp 200 (.parsed gJsonG1)) =
      { sTerminal with board := some emptyBoard
                       currentPlayer := some "X"
                       status := some "ongoing"
                       winner := none
                       moves := some 0
                       gameId := some "g1"
                       error := ""
                       loading := false } :=
  C2_amended sTerminal 0 0 200 gJsonG1 emptyBoard (Or.inl rfl) (by decide) rfl

/-- C3: for every dispatched move submission, a transport failure or a
non-success status or an unparsable body sets a nonempty error and leaves
every session field (id, board, currentPlayer, status, winner, moveCount)
unchanged; a success response that is not accepted leaves the session
fields unchanged and sets the error to the nonempty reason the server
sent; an accepted response replaces the session fields wholesale, in one
update, with the returned state (the session id, absent from the returned
state, is retained). -/
theorem C3_move_submission (s s₁ : ClientState) (r c : Nat)
    (h : handleCellClickPre s r c = some s₁) :
    (∀ m, sessionEq (handleCellClickApply s₁ (.netError m)) s ∧
      (handleCellClickApply s₁ (.netError m)).error ≠ "") ∧
    (∀ stc b, resOk stc = false →
      sessionEq (handleCellClickApply s₁ (.resp stc b)) s ∧
      (handleCellClickApply s₁ (.resp stc b)).error ≠ "") ∧
    (∀ stc m, sessionEq (handleCellClickApply s₁ (.resp stc (.parseFail m))) s ∧
      (handleCellClickApply s₁ (.resp stc (.parseFail m))).error ≠ "") ∧
    (∀ stc d msg, resOk stc = true → (d.valid = false ∨ d.state = none) →
      d.error = some msg → msg ≠ "" →
      sessionEq (handleCellClickApply s₁ (.resp stc (.parsed d))) s ∧
      (handleCellClickApply s₁ (.resp stc (.parsed d))).error = msg) ∧
    (∀ stc d st2, resOk stc = true → d.valid = true → d.state = some st2 →
      handleCellClickApply s₁ (.resp stc (.parsed d)) =
        { s with board := st2.board
                 currentPlayer := st2.current_player
                 status := st2.status
                 winner := jsOrNull st2.winner
                 moves := st2.moves
                 error := ""
                 loading := false }) := by
  have hs := handleCellClickPre_some s s₁ r c h
  subst hs
  refine ⟨?_, ?_, ?_, ?_, ?_⟩
  · intro m
    exact ⟨⟨rfl, rfl, rfl, rfl, rfl, rfl⟩,
      jsOr_ne_empty m "Could not submit move" (by decide)⟩
  · intro stc b hbad
    have hr : handleCellClickApply { s with loading := true, error := "" } (.resp stc b) =
        { s with error := jsOr ("Move failed (" ++ toString stc ++ ")") "Could not submit move"
                 loading := false } := by
      simp only [handleCellClickApply]
      rw [if_neg (by simp [hbad])]
    rw [hr]
    exact ⟨⟨rfl, rfl, rfl, rfl, rfl, rfl⟩,
      jsOr_ne_empty ("Move failed (" ++ toString stc ++ ")") "Could not submit move" (by decide)⟩
  · intro stc m
    cases hr : resOk stc with
    | false =>
      have he : handleCellClickApply { s with loading := true, error := "" }
          (.resp stc (.parseFail m)) =
          { s with error := jsOr ("Move failed (" ++ toString stc ++ ")") "Could not submit move"
                   loading := false } := by
        simp only [handleCellClickApply]
        rw [if_neg (by simp [hr])]
      rw [he]
      exact ⟨⟨rfl, rfl, rfl, rfl, rfl, rfl⟩,
        jsOr_ne_empty ("Move failed (" ++ toString stc ++ ")") "Could not submit move" (by decide)⟩
    | true =>
      have he : handleCellClickApply { s with loading := true, error := "" }
          (.resp stc (.parseFail m)) =
          { s with error := jsOr m "Could not submit move", loading := false } := by
        simp only [handleCellClickApply]
        rw [if_pos hr]
      rw [he]
      exact ⟨⟨rfl, rfl, rfl, rfl, rfl, rfl⟩,
        jsOr_ne_empty m "Could not submit move" (by decide)⟩
  · intro stc d msg hok hrej herr hne
    obtain ⟨v, st, e⟩ := d
    simp only at hrej herr
    subst herr
    have he : handleCellClickApply { s with loading := true, error := "" }
        (.resp stc (.parsed ⟨v, st, some msg⟩)) =
        { s with error := jsOrOpt (some msg) "Illegal move", loading := false } := by
      simp only [handleCellClickApply]
      rw [if_pos hok]
      rcases hrej with h2 | h2
      · subst h2
        cases st <;> rfl
      · subst h2
        cases v <;> rfl
    rw [he]
    refine ⟨⟨rfl, rfl, rfl, rfl, rfl, rfl⟩, ?_⟩
    simp [jsOrOpt, jsOr, hne]
  · intro stc d st2 hok hv hst
    obtain ⟨v, st, e⟩ := d
    simp only at hv hst
    subst hv
    subst hst
    simp only [handleCellClickApply]
    rw [if_pos hok]

/-- Witness for C3 at the concrete accepted centre move of the scenario. -/
theorem C3_witness :
    handleCellClickApply { sCreated with loading := true, error := "" }
      (.resp 200 (.parsed
        { valid := true
          state := some
            { board := some centerXBoard, current_player := some "O"
              status := some "ongoing", winner := none, moves := some 1 }
          error := none })) =
      { sCreated with board := some centerXBoard
                      currentPlayer := some "O"
                      status := some "ongoing"
                      winner := none
                      moves := some 1
                      error := ""
                      loading := false } :=
  (C3_move_submission sCreated { sCreated with loading := true, error := "" }
      1 1 rfl).2.2.2.2 200
    { valid := true
      state := some
        { board := some centerXBoard, current_player := some "O"
          status := some "ongoing", winner := none, moves := some 1 }
      error := none }
    { board := some centerXBoard, current_player := some "O"
      status := some "ongoing", winner := none, moves := some 1 }
    (by decide) rfl rfl

/-- C5 counterexample: in the reachable state `sErrored`, which carries the
error message of a previously failed attempt, a poll-triggered
`fetchGameState('g1')` dispatches its request while the error field still
holds the stale message: `fetchGameState` never clears the error before
dispatch, refuting the claim that the error is cleared at the start of
every request attempt. -/
theorem C5_counterexample :
    sErrored.error = "previous failure" ∧
    fetchGameStatePre sErrored (some "g1") = some { sErrored with loading := true } ∧
    ({ sErrored with loading := true } : ClientState).error = "previous failure" := by
  decide

/-- C5 amended: the error message is cleared at the start of a create
attempt and of a move attempt, before their requests are dispatched; a
fetch attempt does not clear it — the previous message persists at dispatch
time, and is cleared only by a successful fetch response.  On each attempt
the error is set only on that attempt's failure. -/
theorem C5_amended (s s₁ s₂ : ClientState) (gid : Option String) (r c : Nat)
    (h1 : handleCellClickPre s r c = some s₁)
    (h2 : fetchGameStatePre s gid = some s₂) :
    (startNewGamePre s).error = "" ∧ s₁.error = "" ∧ s₂.error = s.error := by
  have e1 := handleCellClickPre_some s s₁ r c h1
  have e2 := fetchGameStatePre_some s s₂ gid h2
  subst e1
  subst e2
  exact ⟨rfl, rfl, rfl⟩

/-- Witness for the amended C5 at the concrete stale-error state. -/
theorem C5_amended_witness :
    (startNewGamePre sErrored).error = "" ∧
    ({ sErrored with loading := true, error := "" } : ClientState).error = "" ∧
    ({ sErrored with loading := true } : ClientState).error = sErrored.error :=
  C5_amended sErrored
    { sErrored with loading := true, error := "" }
    { sErrored with loading := true }
    (some "g1") 0 0 rfl rfl

/-- C6 counterexample: a `GET /game/g1` response with success status 200
whose body parses as JSON but has none of the GameState fields is not
treated as an error by `fetchGameState`: no error message is set (and the
session fields are silently retained), while `startNewGame` applies such a
body to the session fields instead of failing.  Both refute the claim that
a body failing to parse into the expected GameState shape makes the
operation fail with an error and no other side effects. -/
theorem C6_counterexample :
    resOk 200 = true ∧
    emptyJson.board = none ∧
    (fetchGameStateApply sCreated (.resp 200 (.parsed emptyJson))).error = "" ∧
    sessionEq (fetchGameStateApply sCreated (.resp 200 (.parsed emptyJson))) sCreated ∧
    (startNewGameApply (startNewGamePre sCreated) (.resp 200 (.parsed emptyJson))).board = none ∧
    (startNewGameApply (startNewGamePre sCreated) (.resp 200 (.parsed emptyJson))).gameId = none := by
  decide

/-- C6 amended: for all three operations, a network failure, a response
with status outside the success range, and a body that fails JSON parsing
each set a nonempty error message and leave every session field unchanged,
and are never treated as domain results.  A body that parses as JSON but
does not match the GameState shape is not detected: `fetchGameState`
silently ignores a body without a truthy `board`, `startNewGame` applies
whatever fields are present, and `handleCellClick` treats a body without
`valid` and `state` as a rejected move. -/
theorem C6_amended (s : ClientState) (stc stc2 : Nat) (m n : String)
    (gb : JsonBody GameJson) (mb : JsonBody MoveJson)
    (hbad : resOk stc = false) :
    (sessionEq (fetchGameStateApply s (.resp stc gb)) s ∧
      (fetchGameStateApply s (.resp stc gb)).error ≠ "") ∧
    (sessionEq (startNewGameApply s (.resp stc gb)) s ∧
      (startNewGameApply s (.resp stc gb)).error ≠ "") ∧
    (sessionEq (handleCellClickApply s (.resp stc mb)) s ∧
      (handleCellClickApply s (.resp stc mb)).error ≠ "") ∧
    (sessionEq (fetchGameStateApply s (.netError n)) s ∧
      (fetchGameStateApply s (.netError n)).error ≠ "") ∧
    (sessionEq (startNewGameApply s (.netError n)) s ∧
      (startNewGameApply s (.netError n)).error ≠ "") ∧
    (sessionEq (handleCellClickApply s (.netError n)) s ∧
      (handleCellClickApply s (.netError n)).error ≠ "") ∧
    (sessionEq (fetchGameStateApply s (.resp stc2 (.parseFail m))) s ∧
      (fetchGameStateApply s (.resp stc2 (.parseFail m))).error ≠ "") ∧
    (sessionEq (startNewGameApply s (.resp stc2 (.parseFail m))) s ∧
      (startNewGameApply s (.resp stc2 (.parseFail m))).error ≠ "") ∧
    (sessionEq (handleCellClickApply s (.resp stc2 (.parseFail m))) s ∧
      (handleCellClickApply s (.resp stc2 (.parseFail m))).error ≠ "") := by
  refine ⟨?_, ?_, ?_, ?_, ?_, ?_, ?_, ?_, ?_⟩
  · have he : fetchGameStateApply s (.resp stc gb) =
        { s with error := jsOr "Failed to fetch game state" "Could not fetch game state"
                 loading := false } := by
      simp only [fetchGameStateApply]
      rw [if_neg (by simp [hbad])]
    rw [he]
    exact ⟨sessionEq_errorUpdate s _ _, jsOr_ne_empty "Failed to fetch game state" "Could not fetch game state" (by decide)⟩
  · have he : startNewGameApply s (.resp stc gb) =
        { s with error := jsOr "Failed to start new game" "Could not start a new game"
                 loading := false } := by
      simp only [startNewGameApply]
      rw [if_neg (by simp [hbad])]
    rw [he]
    exact ⟨sessionEq_errorUpdate s _ _, jsOr_ne_empty "Failed to start new game" "Could not start a new game" (by decide)⟩
  · have he : handleCellClickApply s (.resp stc mb) =
        { s with error := jsOr ("Move failed (" ++ toString stc ++ ")") "Could not submit move"
                 loading := false } := by
      simp only [handleCellClickApply]
      rw [if_neg (by simp [hbad])]
    rw [he]
    exact ⟨sessionEq_errorUpdate s _ _,
      jsOr_ne_empty ("Move failed (" ++ toString stc ++ ")") "Could not submit move" (by decide)⟩
  · have he : fetchGameStateApply s (.netError n) =
        { s with error := jsOr n "Could not fetch game state", loading := false } := rfl
    rw [he]
    exact ⟨sessionEq_errorUpdate s _ _, jsOr_ne_empty n "Could not fetch game state" (by decide)⟩
  · have he : startNewGameApply s (.netError n) =
        { s with error := jsOr n "Could not start a new game", loading := false } := rfl
    rw [he]
    exact ⟨sessionEq_errorUpdate s _ _, jsOr_ne_empty n "Could not start a new game" (by decide)⟩
  · have he : handleCellClickApply s (.netError n) =
        { s with error := jsOr n "Could not submit move", loading := false } := rfl
    rw [he]
    exact ⟨sessionEq_errorUpdate s _ _, jsOr_ne_empty n "Could not submit move" (by decide)⟩
  · cases hr : resOk stc2 with
    | false =>
      have he : fetchGameStateApply s (.resp stc2 (.parseFail m)) =
          { s with error := jsOr "Failed to fetch game state" "Could not fetch game state"
                   loading := false } := by
        simp only [fetchGameStateApply]
        rw [if_neg (by simp [hr])]
      rw [he]
      exact ⟨sessionEq_errorUpdate s _ _,
        jsOr_ne_empty "Failed to fetch game state" "Could not fetch game state" (by decide)⟩
    | true =>
      have he : fetchGameStateApply s (.resp stc2 (.parseFail m)) =
          { s with error := jsOr m "Could not fetch game state", loading := false } := by
        simp only [fetchGameStateApply]
        rw [if_pos hr]
      rw [he]
      exact ⟨sessionEq_errorUpdate s _ _, jsOr_ne_empty m "Could not fetch game state" (by decide)⟩
  · cases hr : resOk stc2 with
    | false =>
      have he : startNewGameApply s (.resp stc2 (.parseFail m)) =
          { s with error := jsOr "Failed to start new game" "Could not start a new game"
                   loading := false } := by
        simp only [startNewGameApply]
        rw [if_neg (by simp [hr])]
      rw [he]
      exact ⟨sessionEq_errorUpdate s _ _,
        jsOr_ne_empty "Failed to start new game" "Could not start a new game" (by decide)⟩
    | true =>
      have he : startNewGameApply s (.resp stc2 (.parseFail m)) =
          { s with error := jsOr m "Could not start a new game", loading := false } := by
        simp only [startNewGameApply]
        rw [if_pos hr]
      rw [he]
      exact ⟨sessionEq_errorUpdate s _ _, jsOr_ne_empty m "Could not start a new game" (by decide)⟩
  · cases hr : resOk stc2 with
    | false =>
      have he : handleCellClickApply s (.resp stc2 (.parseFail m)) =
          { s with error := jsOr ("Move failed (" ++ toString stc2 ++ ")") "Could not submit move"
                   loading := false } := by
        simp only [handleCellClickApply]
        rw [if_neg (by simp [hr])]
      rw [he]
      exact ⟨sessionEq_errorUpdate s _ _,
        jsOr_ne_empty ("Move failed (" ++ toString stc2 ++ ")") "Could not submit move" (by decide)⟩
    | true =>
      have he : handleCellClickApply s (.resp stc2 (.parseFail m)) =
          { s with error := jsOr m "Could not submit move", loading := false } := by
        simp only [handleCellClickApply]
        rw [if_pos hr]
      rw [he]
      exact ⟨sessionEq_errorUpdate s _ _, jsOr_ne_empty m "Could not submit move" (by decide)⟩

/-- Witness for the amended C6 at a concrete state, a 500 status, and a
parse-failing body. -/
theorem C6_amended_witness :
    (sessionEq (fetchGameStateApply sCreated (.resp 500 (.parseFail "bad json"))) sCreated ∧
      (fetchGameStateApply sCreated (.resp 500 (.parseFail "bad json"))).error ≠ "") ∧
    (sessionEq (startNewGameApply sCreated (.resp 500 (.parseFail "bad json"))) sCreated ∧
      (startNewGameApply sCreated (.resp 500 (.parseFail "bad json"))).error ≠ "") ∧
    (sessionEq (handleCellClickApply sCreated (.resp 500 (.parseFail "bad json"))) sCreated ∧
      (handleCellClickApply sCreated (.resp 500 (.parseFail "bad json"))).error ≠ "") ∧
    (sessionEq (fetchGameStateApply sCreated (.netError "network down")) sCreated ∧
      (fetchGameStateApply sCreated (.netError "network down")).error ≠ "") ∧
    (sessionEq (startNewGameApply sCreated (.netError "network down")) sCreated ∧
      (startNewGameApply sCreated (.netError "network down")).error ≠ "") ∧
    (sessionEq (handleCellClickApply sCreated (.netError "network down")) sCreated ∧
      (handleCellClickApply sCreated (.netError "network down")).error ≠ "") ∧
    (sessionEq (fetchGameStateApply sCreated (.resp 204 (.parseFail "bad json"))) sCreated ∧
      (fetchGameStateApply sCreated (.resp 204 (.parseFail "bad json"))).error ≠ "") ∧
    (sessionEq (startNewGameApply sCreated (.resp 204 (.parseFail "bad json"))) sCreated ∧
      (startNewGameApply sCreated (.resp 204 (.parseFail "bad json"))).error ≠ "") ∧
    (sessionEq (handleCellClickApply sCreated (.resp 204 (.parseFail "bad json"))) sCreated ∧
      (handleCellClickApply sCreated (.resp 204 (.parseFail "bad json"))).error ≠ "") :=
  C6_amended sCreated 500 204 "bad json" "network down" (.parseFail "bad json") (.parseFail "bad json") rfl

/-- C4: after the mount render and a successful session creation for `g1`
with status ongoing, the polling effect settles with `pollInterval`
holding a handle but zero live interval timers: the creation run returns
the cleanup `clearInterval(interval)`, `setPollInterval` re-triggers the
effect because `pollInterval` is in its dependency array, and React runs
that cleanup before the re-run, clearing the interval that was just
created.  The claim — and the comment in the source, `Poll state every
1.5s if ongoing` — require exactly one active timer in the
ONGOING-with-session condition, destroyed only on leaving it; the code
leaves zero. -/
theorem C4_poll_timer_dead :
    jsTruthy (some "g1") = true ∧
    pollEffectAfterCreate.pollInterval = some 1 ∧
    pollEffectAfterCreate.live = [] ∧
    pollEffectAfterCreate.live.length ≠ 1 := by
  decide
